import Mathlib

/-!
Shallow embedding of the timetable assignment engine of this repository.

Exact mode (`app/generator.py`, class `TimetableGenerator`): decision
variables are (course, slot, room, faculty) tuples surviving the prefilter
`_is_room_suitable` plus the course-faculty links; the CP model is a list of
linear constraints over those tuples; the external CP-SAT solver is modelled
by its contract: a status plus, on OPTIMAL/FEASIBLE, a boolean assignment
that satisfies every emitted constraint.  `_extract_solution`,
`save_to_database` and `generate` are translated directly.

Heuristic mode (`main.py`, `generate_nep_compliant_schedule`): the random
primitives are driven by an explicit stream `rand : Nat → Nat` with a call
counter, and fallible operations (`random.choice` on a possibly-empty list)
live in `Except String`.
-/

namespace Timetable

/-- `courses` row as used by the generator. -/
structure Course where
  id : Nat
  theory_hours : Nat
  practical_hours : Nat
  tutorial_hours : Nat
deriving DecidableEq, Repr

/-- `rooms` row as used by the generator. -/
structure Room where
  id : Nat
  capacity : Nat
  room_type : String
deriving DecidableEq, Repr

/-- `time_slots` row as used by the generator; `start_time` in minutes. -/
structure TimeSlot where
  id : Nat
  day_of_week : Nat
  start_time : Nat
  slot_type : String
deriving DecidableEq, Repr

/-- `faculty` row: availability maps a day to its `available` flag
(absent day or empty availability dict means unrestricted). -/
structure Faculty where
  id : Nat
  availability : List (Nat × Bool)
deriving DecidableEq, Repr

/-- One entry of `self.schedule` in `create_variables`: a candidate tuple,
which is also the decision variable itself. -/
structure ScheduleVar where
  course_id : Nat
  slot_id : Nat
  room_id : Nat
  faculty_id : Nat
  course : Course
  slot : TimeSlot
  room : Room
deriving DecidableEq, Repr

/-- One dict produced by `_extract_solution`. -/
structure Entry where
  course_id : Nat
  faculty_id : Nat
  room_id : Nat
  time_slot_id : Nat
  semester : String
  academic_year : String
  course : Course
  slot : TimeSlot
  room : Room
deriving DecidableEq, Repr

/-- `theory_hours + practical_hours + tutorial_hours`. -/
def totalHours (c : Course) : Nat :=
  c.theory_hours + c.practical_hours + c.tutorial_hours

/-- `total_hours // 15` (15-week semester), as in `_add_course_hours_constraint`. -/
def requiredSessions (c : Course) : Nat :=
  totalHours c / 15

/-- `len(enrollments.data) if enrollments.data else 30`: the enrollment count
for the course, defaulting to 30 when no enrollment rows resolve.
`enroll` maps a course id to its number of enrollment rows. -/
def studentCount (enroll : Nat → Nat) (c : Course) : Nat :=
  if enroll c.id = 0 then 30 else enroll c.id

/-- `_is_room_suitable`: capacity check and room-type/slot-type compatibility. -/
def is_room_suitable (enroll : Nat → Nat) (c : Course) (r : Room) (s : TimeSlot) : Bool :=
  if r.capacity < studentCount enroll c then false
  else if s.slot_type = "Practical" ∧ r.room_type ≠ "Lab" then false
  else if s.slot_type = "Theory" ∧ r.room_type = "Lab" then false
  else true

/-- `create_variables`: one candidate tuple per course (with nonzero hours),
slot, suitable room and linked faculty member.  `assignments` maps a course
id to its linked faculty ids (`self.assignments`, missing key = `[]`). -/
def create_variables (courses : List Course) (time_slots : List TimeSlot)
    (rooms : List Room) (assignments : Nat → List Nat) (enroll : Nat → Nat) :
    List ScheduleVar :=
  courses.flatMap fun c =>
    if totalHours c = 0 then []
    else time_slots.flatMap fun s =>
      rooms.flatMap fun r =>
        if is_room_suitable enroll c r s then
          (assignments c.id).map fun fid =>
            { course_id := c.id, slot_id := s.id, room_id := r.id,
              faculty_id := fid, course := c, slot := s, room := r }
        else []

/-- Number of scheduled (true) variables in a group: `sum(vars)` under a
boolean assignment. -/
def countTrue (a : ScheduleVar → Bool) (l : List ScheduleVar) : Nat :=
  (l.filter a).length

/-- Group of all candidate tuples sharing a key, in creation order
(the dict groups of the `_add_*_constraint` methods). -/
def groupOf {κ : Type} [DecidableEq κ] (key : ScheduleVar → κ)
    (sched : List ScheduleVar) (k : κ) : List ScheduleVar :=
  sched.filter fun v => decide (key v = k)

/-- All nonempty key groups, one per key occurring in `sched`. -/
def groupsBy {κ : Type} [DecidableEq κ] (key : ScheduleVar → κ)
    (sched : List ScheduleVar) : List (List ScheduleVar) :=
  ((sched.map key).dedup).map (groupOf key sched)

/-- `f"{faculty_id}_{slot_id}"` grouping key of `_add_faculty_conflict_constraint`. -/
def keyFS (v : ScheduleVar) : Nat × Nat := (v.faculty_id, v.slot_id)

/-- `f"{room_id}_{slot_id}"` grouping key of `_add_room_conflict_constraint`. -/
def keyRS (v : ScheduleVar) : Nat × Nat := (v.room_id, v.slot_id)

/-- `f"{course_id}_{day}"` grouping key of the distribution and
consecutive-hours constraints. -/
def keyCD (v : ScheduleVar) : Nat × Nat := (v.course_id, v.slot.day_of_week)

/-- `_add_faculty_conflict_constraint`: the groups that receive a
`sum(vars) <= 1` constraint (only groups with more than one variable). -/
def facultyConflictConstraints (sched : List ScheduleVar) : List (List ScheduleVar) :=
  (groupsBy keyFS sched).filter fun g => decide (1 < g.length)

/-- `_add_room_conflict_constraint`: groups receiving `sum(vars) <= 1`. -/
def roomConflictConstraints (sched : List ScheduleVar) : List (List ScheduleVar) :=
  (groupsBy keyRS sched).filter fun g => decide (1 < g.length)

/-- The per-course variable group of `_add_course_hours_constraint`. -/
def courseGroup (sched : List ScheduleVar) (cid : Nat) : List ScheduleVar :=
  sched.filter fun v => decide (v.course_id = cid)

/-- `required_hours` of a course group: recomputed on every variable, so the
value kept is the one from the last variable's course record. -/
def requiredOfGroup (g : List ScheduleVar) : Nat :=
  match g.getLast? with
  | some v => requiredSessions v.course
  | none => 0

/-- `_add_course_hours_constraint`: for each course with positive
`required_hours`, the constraint `sum(vars) == required_hours`. -/
def coverageConstraints (sched : List ScheduleVar) : List (List ScheduleVar × Nat) :=
  (((sched.map (·.course_id)).dedup).map fun cid =>
    (courseGroup sched cid, requiredOfGroup (courseGroup sched cid))).filter
    fun p => decide (0 < p.2)

/-- `_add_faculty_availability_constraint`: whether the variable is forced to
zero because its faculty member marked the slot's day unavailable. -/
def availabilityViolated (faculty : List Faculty) (v : ScheduleVar) : Bool :=
  match faculty.find? (fun f => decide (f.id = v.faculty_id)) with
  | none => false
  | some f =>
    if f.availability.isEmpty then false
    else
      match f.availability.lookup v.slot.day_of_week with
      | some avail => !avail
      | none => false

/-- `_add_distribution_constraint`: per (course, day) groups with more than
two variables, `sum(vars) <= 2`. -/
def distributionConstraints (sched : List ScheduleVar) : List (List ScheduleVar) :=
  (groupsBy keyCD sched).filter fun g => decide (2 < g.length)

/-- Stable insertion step: `x` goes after every element it is not
strictly below. -/
def insertSortedBy {α : Type} (lt : α → α → Bool) (x : α) : List α → List α
  | [] => [x]
  | y :: ys => if lt x y then x :: y :: ys else y :: insertSortedBy lt x ys

/-- Stable sort (matching Python's stable `list.sort`). -/
def stableSortBy {α : Type} (lt : α → α → Bool) (l : List α) : List α :=
  l.foldl (fun acc x => insertSortedBy lt x acc) []

/-- `slots.sort(key=lambda x: x[0])`: the (course, day) variable list sorted
by slot start time. -/
def sortByStart (l : List ScheduleVar) : List ScheduleVar :=
  stableSortBy (fun v w => decide (v.slot.start_time < w.slot.start_time)) l

/-- Sliding windows of three consecutive elements. -/
def windows3 {α : Type} : List α → List (List α)
  | a :: b :: c :: rest => [a, b, c] :: windows3 (b :: c :: rest)
  | _ => []

/-- `_add_consecutive_hours_constraint`: per (course, day), windows of three
consecutive variables in start-time order, each constrained to `sum <= 2`. -/
def consecutiveConstraints (sched : List ScheduleVar) : List (List ScheduleVar) :=
  (groupsBy keyCD sched).flatMap fun g => windows3 (sortByStart g)

/-- An assignment satisfies every constraint `add_constraints` put in the
CP model (the custom hard constraints of `_apply_hard_constraint` are a
no-op in the source and add nothing). -/
def satisfiesModel (faculty : List Faculty) (sched : List ScheduleVar)
    (a : ScheduleVar → Bool) : Bool :=
  (coverageConstraints sched).all (fun p => decide (countTrue a p.1 = p.2)) &&
  (facultyConflictConstraints sched).all (fun g => decide (countTrue a g ≤ 1)) &&
  (roomConflictConstraints sched).all (fun g => decide (countTrue a g ≤ 1)) &&
  ((sched.filter (availabilityViolated faculty)).all fun v => a v == false) &&
  (distributionConstraints sched).all (fun g => decide (countTrue a g ≤ 2)) &&
  (consecutiveConstraints sched).all (fun g => decide (countTrue a g ≤ 2))

/-- `_extract_solution`: one entry per variable the solver set to 1,
in creation order. -/
def extract_solution (sched : List ScheduleVar) (sem ay : String)
    (a : ScheduleVar → Bool) : List Entry :=
  (sched.filter a).map fun v =>
    { course_id := v.course_id, faculty_id := v.faculty_id, room_id := v.room_id,
      time_slot_id := v.slot_id, semester := sem, academic_year := ay,
      course := v.course, slot := v.slot, room := v.room }

/-- CP-SAT termination status of `solver.Solve(model)`. -/
inductive CpStatus where
  | optimal
  | feasible
  | infeasible
  | model_invalid
  | unknown
deriving DecidableEq, Repr

/-- `status == cp_model.OPTIMAL or status == cp_model.FEASIBLE`. -/
def statusSuccess : CpStatus → Bool
  | .optimal => true
  | .feasible => true
  | _ => false

/-- `solve`: on OPTIMAL/FEASIBLE the solver yields an assignment `a` of the
variables and `_extract_solution` is returned; otherwise `None`.  Timeout
(budget exhausted without an answer) is the UNKNOWN status. -/
def solveOutcome (sched : List ScheduleVar) (sem ay : String)
    (status : CpStatus) (a : ScheduleVar → Bool) : Option (List Entry) :=
  if statusSuccess status then some (extract_solution sched sem ay a) else none

/-- `timetable_entries` row written by `save_to_database`. -/
structure DBRow where
  course_id : Nat
  faculty_id : Nat
  room_id : Nat
  time_slot_id : Nat
  semester : String
  academic_year : String
deriving DecidableEq, Repr

/-- The row inserted for one solution entry. -/
def entryRow (e : Entry) : DBRow :=
  { course_id := e.course_id, faculty_id := e.faculty_id, room_id := e.room_id,
    time_slot_id := e.time_slot_id, semester := e.semester,
    academic_year := e.academic_year }

/-- The delete filter `.eq('semester', ...).eq('academic_year', ...)`. -/
def matchesKey (sem ay : String) (r : DBRow) : Bool :=
  decide (r.semester = sem ∧ r.academic_year = ay)

/-- `save_to_database`: delete every `timetable_entries` row under the
(semester, academic_year) key, then insert one row per entry; any database
exception is caught and `False` returned, leaving the rows already written.
`failAt = some 0` makes the delete call raise, `failAt = some (k+1)` makes
the insert of entry `k` raise, `failAt = none` lets every call succeed. -/
def save_to_database (db : List DBRow) (sem ay : String) (sol : List Entry)
    (failAt : Option Nat) : Bool × List DBRow :=
  match failAt with
  | some 0 => (false, db)
  | some (k + 1) =>
      if k < sol.length then
        (false, db.filter (fun r => !matchesKey sem ay r) ++ (sol.take k).map entryRow)
      else
        (true, db.filter (fun r => !matchesKey sem ay r) ++ sol.map entryRow)
  | none =>
      (true, db.filter (fun r => !matchesKey sem ay r) ++ sol.map entryRow)

/-- The dict returned by `generate`. -/
structure GenResult where
  success : Bool
  solution : Option (List Entry)
  message : String
deriving DecidableEq, Repr

/-- `generate` after `create_variables`/`add_constraints`: dispatch on the
solve outcome (`if solution:` is Python truthiness, so `None` and the empty
list both take the failure branch), saving to the database on success and
ignoring `save_to_database`'s return value.  Returns the result dict and the
database state after the call. -/
def generateRun (sem ay : String) (sched : List ScheduleVar) (status : CpStatus)
    (a : ScheduleVar → Bool) (db : List DBRow) (failAt : Option Nat) :
    GenResult × List DBRow :=
  match solveOutcome sched sem ay status a with
  | some sol =>
      if sol.isEmpty then
        ({ success := false, solution := none,
           message := "Could not find a feasible solution" }, db)
      else
        ({ success := true, solution := some sol,
           message := "Timetable generated successfully" },
         (save_to_database db sem ay sol failAt).2)
  | none =>
      ({ success := false, solution := none,
         message := "Could not find a feasible solution" }, db)

/-! Concrete data used to exercise the definitions. -/

/-- A 15-theory-hour course (one required session). -/
def courseA : Course := { id := 1, theory_hours := 15, practical_hours := 0, tutorial_hours := 0 }

/-- A second 15-theory-hour course. -/
def courseB : Course := { id := 2, theory_hours := 15, practical_hours := 0, tutorial_hours := 0 }

/-- A 30-seat general classroom. -/
def room10 : Room := { id := 10, capacity := 30, room_type := "Classroom" }

/-- A Monday-morning theory slot. -/
def slot20 : TimeSlot := { id := 20, day_of_week := 0, start_time := 540, slot_type := "Theory" }

/-- A second Monday theory slot. -/
def slot21 : TimeSlot := { id := 21, day_of_week := 0, start_time := 600, slot_type := "Theory" }

/-- A faculty member with no availability restrictions. -/
def fac7 : Faculty := { id := 7, availability := [] }

/-- Links: course 1 is taught by faculty 7, nothing else. -/
def assignA : Nat → List Nat := fun cid => if cid = 1 then [7] else []

/-- Links: course 2 is taught by faculty 7, nothing else (course 1 has no
linked faculty). -/
def assignBOnly : Nat → List Nat := fun cid => if cid = 2 then [7] else []

/-- No enrollment rows resolve for any course. -/
def enroll0 : Nat → Nat := fun _ => 0

/-- Candidate set of the one-course sample problem. -/
def schedA : List ScheduleVar :=
  create_variables [courseA] [slot20, slot21] [room10] assignA enroll0

/-- Candidate set of the two-course sample problem in which course 1 has no
linked faculty member. -/
def schedB : List ScheduleVar :=
  create_variables [courseA, courseB] [slot20] [room10] assignBOnly enroll0

/-- The assignment scheduling exactly the slot-20 candidate. -/
def pickSlot20 : ScheduleVar → Bool := fun v => decide (v.slot_id = 20)

example : schedA.length = 2 := by decide
example : satisfiesModel [fac7] schedA pickSlot20 = true := by decide
example : satisfiesModel [fac7] schedB (fun _ => true) = true := by decide

/-! Lemmas about the emitted constraint model. -/

/-- Unpacking `satisfiesModel` into its six constraint families. -/
lemma model_spec (faculty : List Faculty) (sched : List ScheduleVar)
    (a : ScheduleVar → Bool) (h : satisfiesModel faculty sched a = true) :
    (∀ p ∈ coverageConstraints sched, countTrue a p.1 = p.2) ∧
    (∀ g ∈ facultyConflictConstraints sched, countTrue a g ≤ 1) ∧
    (∀ g ∈ roomConflictConstraints sched, countTrue a g ≤ 1) ∧
    (∀ v ∈ sched, availabilityViolated faculty v = true → a v = false) ∧
    (∀ g ∈ distributionConstraints sched, countTrue a g ≤ 2) ∧
    (∀ g ∈ consecutiveConstraints sched, countTrue a g ≤ 2) := by
  simp only [satisfiesModel, Bool.and_eq_true, List.all_eq_true, decide_eq_true_eq,
    beq_iff_eq] at h
  obtain ⟨⟨⟨⟨⟨h1, h2⟩, h3⟩, h4⟩, h5⟩, h6⟩ := h
  refine ⟨h1, h2, h3, ?_, h5, h6⟩
  intro v hv hviol
  exact h4 v (List.mem_filter.2 ⟨hv, hviol⟩)

/-- A key whose group is nonempty yields a member of `groupsBy`. -/
lemma groupOf_mem_groupsBy {κ : Type} [DecidableEq κ] (key : ScheduleVar → κ)
    (sched : List ScheduleVar) (k : κ) (v : ScheduleVar) (hv : v ∈ sched)
    (hk : key v = k) : groupOf key sched k ∈ groupsBy key sched := by
  exact List.mem_map_of_mem _ (List.mem_dedup.2 (hk ▸ List.mem_map_of_mem key hv))

/-- The scheduled part of a key group, as a single filter over `sched`. -/
lemma filter_groupOf {κ : Type} [DecidableEq κ] (key : ScheduleVar → κ)
    (sched : List ScheduleVar) (k : κ) (a : ScheduleVar → Bool) :
    (groupOf key sched k).filter a =
      sched.filter (fun v => a v && decide (key v = k)) := by
  simp [groupOf, List.filter_filter]

/-- If every group with more than `bound` variables is constrained to at
most `bound` scheduled ones (the shape of the conflict and distribution
constraints), then every key value has at most `bound` scheduled variables. -/
lemma atMost_key (key : ScheduleVar → Nat × Nat) (bound : Nat)
    (sched : List ScheduleVar) (a : ScheduleVar → Bool)
    (h : ∀ g ∈ (groupsBy key sched).filter (fun g => decide (bound < g.length)),
      countTrue a g ≤ bound) :
    ∀ k, (sched.filter (fun v => a v && decide (key v = k))).length ≤ bound := by
  intro k
  rw [← filter_groupOf]
  by_cases hg : bound < (groupOf key sched k).length
  · have hne : groupOf key sched k ≠ [] := by
      intro he; rw [he] at hg; simp at hg
    obtain ⟨v, hv⟩ := List.exists_mem_of_ne_nil _ hne
    have hv' := List.mem_filter.1 hv
    have hmem := groupOf_mem_groupsBy key sched k v hv'.1 (by simpa using hv'.2)
    exact h _ (List.mem_filter.2 ⟨hmem, by simpa using hg⟩)
  · calc ((groupOf key sched k).filter a).length
        ≤ (groupOf key sched k).length := List.length_filter_le _ _
      _ ≤ bound := by omega

/-- At most one scheduled variable per key value forces pairwise distinct
keys among the scheduled variables. -/
lemma pairwise_key_of_atMostOne (sched : List ScheduleVar) (a : ScheduleVar → Bool)
    (key : ScheduleVar → Nat × Nat)
    (H : ∀ k, (sched.filter (fun v => a v && decide (key v = k))).length ≤ 1) :
    (sched.filter a).Pairwise (fun v w => key v ≠ key w) := by
  induction sched with
  | nil => simp
  | cons x xs ih =>
    have Hxs : ∀ k, (xs.filter (fun v => a v && decide (key v = k))).length ≤ 1 := by
      intro k
      have hk := H k
      rw [List.filter_cons] at hk
      split at hk
      · rw [List.length_cons] at hk; omega
      · exact hk
    cases hax : a x with
    | false => simpa [List.filter_cons, hax] using ih Hxs
    | true =>
      rw [List.filter_cons, if_pos hax]
      refine List.pairwise_cons.2 ⟨?_, ih Hxs⟩
      intro w hw hkey
      have hw' := List.mem_filter.1 hw
      have hk := H (key x)
      rw [List.filter_cons, if_pos (by simp [hax])] at hk
      have hwin : w ∈ xs.filter (fun v => a v && decide (key v = key x)) :=
        List.mem_filter.2 ⟨hw'.1, by simp [hw'.2, hkey.symm]⟩
      have hpos : 0 < (xs.filter (fun v => a v && decide (key v = key x))).length :=
        List.length_pos.2 (List.ne_nil_of_mem hwin)
      rw [List.length_cons] at hk
      omega

/-- C1: for every Solution extracted from an OPTIMAL/FEASIBLE exact-mode
solve with the constraints enforced, no two distinct entries share both
`faculty_id` and `time_slot_id`, and no two distinct entries share both
`room_id` and `time_slot_id`. -/
theorem exact_mode_no_double_booking (faculty : List Faculty)
    (sched : List ScheduleVar) (sem ay : String) (a : ScheduleVar → Bool)
    (h : satisfiesModel faculty sched a = true) :
    (extract_solution sched sem ay a).Pairwise
      (fun e1 e2 => ¬(e1.faculty_id = e2.faculty_id ∧ e1.time_slot_id = e2.time_slot_id)) ∧
    (extract_solution sched sem ay a).Pairwise
      (fun e1 e2 => ¬(e1.room_id = e2.room_id ∧ e1.time_slot_id = e2.time_slot_id)) := by
  obtain ⟨-, hfac, hroom, -, -, -⟩ := model_spec faculty sched a h
  constructor
  · rw [extract_solution, List.pairwise_map]
    refine (pairwise_key_of_atMostOne sched a keyFS (atMost_key keyFS 1 sched a hfac)).imp ?_
    intro v w hne hcontra
    exact hne (by simpa [keyFS, Prod.ext_iff] using hcontra)
  · rw [extract_solution, List.pairwise_map]
    refine (pairwise_key_of_atMostOne sched a keyRS (atMost_key keyRS 1 sched a hroom)).imp ?_
    intro v w hne hcontra
    exact hne (by simpa [keyRS, Prod.ext_iff] using hcontra)

/-- C2 (amended): for every course that obtained at least one decision
variable and whose required session count is positive, an OPTIMAL/FEASIBLE
exact-mode Solution contains exactly that many entries for the course. -/
theorem coverage_exact_for_courses_with_variables (faculty : List Faculty)
    (sched : List ScheduleVar) (sem ay : String) (a : ScheduleVar → Bool)
    (h : satisfiesModel faculty sched a = true) (cid : Nat)
    (hocc : ∃ v ∈ sched, v.course_id = cid)
    (hpos : 0 < requiredOfGroup (courseGroup sched cid)) :
    (extract_solution sched sem ay a).countP (fun e => decide (e.course_id = cid))
      = requiredOfGroup (courseGroup sched cid) := by
  obtain ⟨hcov, -, -, -, -, -⟩ := model_spec faculty sched a h
  have hmem : (courseGroup sched cid, requiredOfGroup (courseGroup sched cid))
      ∈ coverageConstraints sched := by
    refine List.mem_filter.2 ⟨?_, by simpa using hpos⟩
    obtain ⟨v, hv, hvc⟩ := hocc
    exact List.mem_map.2 ⟨cid,
      List.mem_dedup.2 (hvc ▸ List.mem_map_of_mem (·.course_id) hv), rfl⟩
  have heq := hcov _ hmem
  have hct : countTrue a (courseGroup sched cid)
      = (sched.filter (fun v => a v && decide (v.course_id = cid))).length := by
    rw [countTrue, courseGroup, List.filter_filter]
  rw [extract_solution, List.countP_map, List.countP_eq_length_filter,
    List.filter_filter]
  have hswap : sched.filter
        (fun v => decide (v.course_id = cid) && a v)
      = sched.filter (fun v => a v && decide (v.course_id = cid)) :=
    List.filter_congr (fun x _ => Bool.and_comm _ _)
  calc (sched.filter (fun v => decide (v.course_id = cid) && a v)).length
      = (sched.filter (fun v => a v && decide (v.course_id = cid))).length := by
        rw [hswap]
    _ = countTrue a (courseGroup sched cid) := hct.symm
    _ = requiredOfGroup (courseGroup sched cid) := heq

/-- Witness for the amended C2 at the concrete one-course problem. -/
theorem coverage_exact_witness :
    (satisfiesModel [fac7] schedA pickSlot20 = true ∧
      (∃ v ∈ schedA, v.course_id = 1) ∧
      0 < requiredOfGroup (courseGroup schedA 1)) ∧
    (extract_solution schedA "Fall" "2025" pickSlot20).countP
        (fun e => decide (e.course_id = 1))
      = requiredOfGroup (courseGroup schedA 1) :=
  ⟨⟨by decide, by decide, by decide⟩,
    coverage_exact_for_courses_with_variables [fac7] schedA "Fall" "2025" pickSlot20
      (by decide) 1 (by decide) (by decide)⟩

/-- Counterexample to C2 as stated: in the two-course problem `schedB`,
course 1 (15 total hours, one required session) is in the assembled problem
but has no linked faculty member, so no variable and no coverage constraint
exists for it; the all-true assignment satisfies the whole emitted model,
generation succeeds, yet the Solution has zero entries for course 1. -/
theorem coverage_counterexample :
    schedB = create_variables [courseA, courseB] [slot20] [room10] assignBOnly enroll0 ∧
    satisfiesModel [fac7] schedB (fun _ => true) = true ∧
    courseA ∈ [courseA, courseB] ∧
    totalHours courseA = 15 ∧
    requiredSessions courseA = 1 ∧
    (generateRun "Fall" "2025" schedB .feasible (fun _ => true) [] none).1.success
      = true ∧
    (extract_solution schedB "Fall" "2025" (fun _ => true)).countP
        (fun e => decide (e.course_id = courseA.id)) = 0 := by
  refine ⟨rfl, by decide, by decide, by decide, by decide, by decide, by decide⟩

/-- C6: with the constraints enforced, every emitted consecutive-window
constraint holds in an OPTIMAL/FEASIBLE solution, and no course receives
more than two same-day entries at all — in particular never three
consecutive same-day slots. -/
theorem no_three_consecutive_sessions (faculty : List Faculty)
    (sched : List ScheduleVar) (sem ay : String) (a : ScheduleVar → Bool)
    (h : satisfiesModel faculty sched a = true) :
    (∀ w ∈ consecutiveConstraints sched, countTrue a w ≤ 2) ∧
    ∀ c d, (extract_solution sched sem ay a).countP
        (fun e => decide (e.course_id = c ∧ e.slot.day_of_week = d)) ≤ 2 := by
  obtain ⟨-, -, -, -, hdist, hcons⟩ := model_spec faculty sched a h
  refine ⟨hcons, ?_⟩
  intro c d
  have hb := atMost_key keyCD 2 sched a hdist (c, d)
  rw [extract_solution, List.countP_map, List.countP_eq_length_filter,
    List.filter_filter]
  have hpred : ∀ v ∈ sched,
      (decide (v.course_id = c ∧ v.slot.day_of_week = d) && a v)
        = (a v && decide (keyCD v = (c, d))) := by
    intro v _
    rw [Bool.and_comm]
    congr 1
    exact decide_eq_decide.2 (by simp [keyCD, Prod.ext_iff])
  calc (sched.filter
          (fun v => decide (v.course_id = c ∧ v.slot.day_of_week = d) && a v)).length
      = (sched.filter (fun v => a v && decide (keyCD v = (c, d)))).length := by
        rw [List.filter_congr hpred]
    _ ≤ 2 := hb

/-- Witness for C6 at the concrete one-course problem. -/
theorem no_three_consecutive_sessions_witness :
    satisfiesModel [fac7] schedA pickSlot20 = true ∧
    (extract_solution schedA "Fall" "2025" pickSlot20).countP
        (fun e => decide (e.course_id = 1 ∧ e.slot.day_of_week = 0)) ≤ 2 :=
  ⟨by decide,
    (no_three_consecutive_sessions [fac7] schedA "Fall" "2025" pickSlot20
      (by decide)).2 1 0⟩

/-- Witness for C1 at the concrete one-course problem. -/
theorem exact_mode_no_double_booking_witness :
    satisfiesModel [fac7] schedA pickSlot20 = true ∧
    ((extract_solution schedA "Fall" "2025" pickSlot20).Pairwise
      (fun e1 e2 => ¬(e1.faculty_id = e2.faculty_id ∧ e1.time_slot_id = e2.time_slot_id)) ∧
    (extract_solution schedA "Fall" "2025" pickSlot20).Pairwise
      (fun e1 e2 => ¬(e1.room_id = e2.room_id ∧ e1.time_slot_id = e2.time_slot_id))) :=
  ⟨by decide, exact_mode_no_double_booking [fac7] schedA "Fall" "2025" pickSlot20 (by decide)⟩

/-- Every database row inserted for an extracted solution carries the
(semester, academic_year) key of the generation. -/
lemma extract_rows_match (sched : List ScheduleVar) (sem ay : String)
    (a : ScheduleVar → Bool) :
    ∀ r ∈ (extract_solution sched sem ay a).map entryRow,
      matchesKey sem ay r = true := by
  intro r hr
  obtain ⟨e, he, rfl⟩ := List.mem_map.1 hr
  obtain ⟨v, -, rfl⟩ := List.mem_map.1 he
  simp [entryRow, matchesKey]

/-- C4: `save_to_database` replaces, never merges: after publishing a second
Solution under the same (semester, academic_year) key, the stored rows are
the unrelated rows plus exactly one row per entry of the second Solution,
and the number of rows under the key equals the second Solution's size. -/
theorem replace_publish_idempotent (db : List DBRow)
    (sched1 sched2 : List ScheduleVar) (a1 a2 : ScheduleVar → Bool)
    (sem ay : String) :
    (save_to_database
        ((save_to_database db sem ay (extract_solution sched1 sem ay a1) none).2)
        sem ay (extract_solution sched2 sem ay a2) none).2
      = db.filter (fun r => !matchesKey sem ay r)
          ++ (extract_solution sched2 sem ay a2).map entryRow ∧
    ((save_to_database
        ((save_to_database db sem ay (extract_solution sched1 sem ay a1) none).2)
        sem ay (extract_solution sched2 sem ay a2) none).2).countP (matchesKey sem ay)
      = (extract_solution sched2 sem ay a2).length := by
  have hrows1 := extract_rows_match sched1 sem ay a1
  have hrows2 := extract_rows_match sched2 sem ay a2
  have hstate : (save_to_database
        ((save_to_database db sem ay (extract_solution sched1 sem ay a1) none).2)
        sem ay (extract_solution sched2 sem ay a2) none).2
      = db.filter (fun r => !matchesKey sem ay r)
          ++ (extract_solution sched2 sem ay a2).map entryRow := by
    show (((db.filter (fun r => !matchesKey sem ay r)
        ++ (extract_solution sched1 sem ay a1).map entryRow).filter
          (fun r => !matchesKey sem ay r))
        ++ (extract_solution sched2 sem ay a2).map entryRow) = _
    rw [List.filter_append]
    have h1 : (db.filter (fun r => !matchesKey sem ay r)).filter
        (fun r => !matchesKey sem ay r) = db.filter (fun r => !matchesKey sem ay r) := by
      rw [List.filter_filter]
      exact List.filter_congr fun x _ => Bool.and_self _
    have h2 : ((extract_solution sched1 sem ay a1).map entryRow).filter
        (fun r => !matchesKey sem ay r) = [] := by
      rw [List.filter_eq_nil_iff]
      intro r hr
      simp [hrows1 r hr]
    rw [h1, h2, List.append_nil]
  refine ⟨hstate, ?_⟩
  rw [hstate, List.countP_append]
  have hz : (db.filter (fun r => !matchesKey sem ay r)).countP (matchesKey sem ay) = 0 := by
    rw [List.countP_eq_zero]
    intro r hr
    have := (List.mem_filter.1 hr).2
    simp only [Bool.not_eq_eq_eq_not, Bool.not_true] at this
    simp [this]
  have hall : ((extract_solution sched2 sem ay a2).map entryRow).countP (matchesKey sem ay)
      = ((extract_solution sched2 sem ay a2).map entryRow).length := by
    rw [List.countP_eq_length]
    exact hrows2
  rw [hz, hall, List.length_map]
  omega

/-- C3 (amended): when the candidate set is empty, `generate` returns the
same generic failure dict as for an infeasible problem, with the message
'Could not find a feasible solution' and an untouched database — there is no
distinct EmptyCandidateSet failure.  This holds whatever status the solver
reports on the empty model. -/
theorem empty_candidates_generic_failure (sem ay : String) (status : CpStatus)
    (a : ScheduleVar → Bool) (db : List DBRow) (failAt : Option Nat) :
    generateRun sem ay [] status a db failAt
      = ({ success := false, solution := none,
           message := "Could not find a feasible solution" }, db) := by
  cases status <;> rfl

/-- Counterexample to C3 as stated: a problem with a course, a slot and a
linked faculty member but no rooms assembles an empty candidate set, and
`generate` returns the generic 'Could not find a feasible solution' result —
byte-for-byte the result of an infeasible solve, not a distinct
EmptyCandidateSet failure. -/
theorem empty_candidates_counterexample :
    create_variables [courseA] [slot20] [] assignA enroll0 = [] ∧
    generateRun "Fall" "2025" (create_variables [courseA] [slot20] [] assignA enroll0)
        .optimal (fun _ => true) [] none
      = generateRun "Fall" "2025" (create_variables [courseA] [slot20] [] assignA enroll0)
        .infeasible (fun _ => true) [] none ∧
    (generateRun "Fall" "2025" (create_variables [courseA] [slot20] [] assignA enroll0)
        .optimal (fun _ => true) [] none).1.message
      = "Could not find a feasible solution" := by
  refine ⟨rfl, rfl, rfl⟩

/-- C5 (amended): when the solver's budget elapses without an answer
(status UNKNOWN) `generate` returns exactly the same generic failure as on
INFEASIBLE — success false, no solution, message 'Could not find a feasible
solution' — and in both cases the database is untouched, so no schedule is
produced or published; the two failures are not distinguishable. -/
theorem timeout_same_as_infeasible (sem ay : String) (sched : List ScheduleVar)
    (a : ScheduleVar → Bool) (db : List DBRow) (failAt : Option Nat) :
    generateRun sem ay sched .unknown a db failAt
      = ({ success := false, solution := none,
           message := "Could not find a feasible solution" }, db) ∧
    generateRun sem ay sched .infeasible a db failAt
      = ({ success := false, solution := none,
           message := "Could not find a feasible solution" }, db) := by
  exact ⟨rfl, rfl⟩

/-- Counterexample to C5 as stated: on the concrete one-course problem the
timeout result equals the infeasibility result exactly, so the Timeout
failure is not distinguishable from InfeasibleProblem. -/
theorem timeout_counterexample :
    generateRun "Fall" "2025" schedA .unknown pickSlot20 [] none
      = generateRun "Fall" "2025" schedA .infeasible pickSlot20 [] none ∧
    (generateRun "Fall" "2025" schedA .unknown pickSlot20 [] none).1.success
      = false := by
  exact ⟨rfl, rfl⟩

/-- C10: if the solver succeeds with a non-empty solution, `generate`
reports success with message 'Timetable generated successfully' for every
possible publish outcome — `save_to_database` catches its exception and
returns `False` (here: the delete call raising), and `generate` ignores that
value, so a publish failure is never reflected in the result. -/
theorem publish_failure_ignored (sem ay : String) (sched : List ScheduleVar)
    (status : CpStatus) (a : ScheduleVar → Bool) (db : List DBRow)
    (failAt : Option Nat) (hs : statusSuccess status = true)
    (hne : extract_solution sched sem ay a ≠ []) :
    (save_to_database db sem ay (extract_solution sched sem ay a) (some 0)).1
      = false ∧
    (generateRun sem ay sched status a db failAt).1
      = { success := true, solution := some (extract_solution sched sem ay a),
          message := "Timetable generated successfully" } := by
  refine ⟨rfl, ?_⟩
  unfold generateRun solveOutcome
  rw [if_pos hs]
  have hempty : (extract_solution sched sem ay a).isEmpty = false := by
    cases hx : extract_solution sched sem ay a with
    | nil => exact absurd hx hne
    | cons y ys => rfl
  simp only [hempty]
  rfl

/-- Witness for C10: concrete successful solve whose publish delete step
fails; the generation result still reports success. -/
theorem publish_failure_ignored_witness :
    (statusSuccess .optimal = true ∧
      extract_solution schedA "Fall" "2025" pickSlot20 ≠ []) ∧
    ((save_to_database [] "Fall" "2025"
        (extract_solution schedA "Fall" "2025" pickSlot20) (some 0)).1 = false ∧
    (generateRun "Fall" "2025" schedA .optimal pickSlot20 [] (some 0)).1
      = { success := true,
          solution := some (extract_solution schedA "Fall" "2025" pickSlot20),
          message := "Timetable generated successfully" }) :=
  ⟨⟨by decide, by decide⟩,
    publish_failure_ignored "Fall" "2025" schedA .optimal pickSlot20 [] (some 0)
      (by decide) (by decide)⟩

/-- What passing `_is_room_suitable` guarantees. -/
lemma is_room_suitable_spec (enroll : Nat → Nat) (c : Course) (r : Room)
    (s : TimeSlot) (h : is_room_suitable enroll c r s = true) :
    studentCount enroll c ≤ r.capacity ∧
    (s.slot_type = "Practical" → r.room_type = "Lab") ∧
    (s.slot_type = "Theory" → r.room_type ≠ "Lab") := by
  unfold is_room_suitable at h
  split_ifs at h with h1 h2 h3
  refine ⟨by omega, ?_, ?_⟩
  · intro hp
    by_contra hl
    exact h2 ⟨hp, hl⟩
  · intro ht hl
    exact h3 ⟨ht, hl⟩

/-- Inversion of `create_variables` membership: every variable comes from a
course with nonzero hours, a slot, a suitable room and a linked faculty id. -/
lemma mem_create_variables (courses : List Course) (ts : List TimeSlot)
    (rooms : List Room) (assignments : Nat → List Nat) (enroll : Nat → Nat)
    (v : ScheduleVar) (hv : v ∈ create_variables courses ts rooms assignments enroll) :
    ∃ c ∈ courses, ∃ s ∈ ts, ∃ r ∈ rooms, ∃ fid ∈ assignments c.id,
      totalHours c ≠ 0 ∧ is_room_suitable enroll c r s = true ∧
      v = { course_id := c.id, slot_id := s.id, room_id := r.id, faculty_id := fid,
            course := c, slot := s, room := r } := by
  simp only [create_variables, List.mem_flatMap] at hv
  obtain ⟨c, hc, hv⟩ := hv
  split at hv
  · exact absurd hv (List.not_mem_nil v)
  · rename_i hch
    rw [List.mem_flatMap] at hv
    obtain ⟨s, hs, hv⟩ := hv
    rw [List.mem_flatMap] at hv
    obtain ⟨r, hr, hv⟩ := hv
    split at hv
    · rename_i hsuit
      obtain ⟨fid, hfid, rfl⟩ := List.mem_map.1 hv
      exact ⟨c, hc, s, hs, r, hr, fid, hfid, hch, hsuit, rfl⟩
    · exact absurd hv (List.not_mem_nil v)

/-- C7: every decision variable (and hence every Solution entry) has a room
whose capacity covers the course's resolved enrollment count (30 when no
enrollments resolve), a Lab room whenever its slot is Practical, and a
non-Lab room whenever its slot is Theory. -/
theorem prefilter_sound (courses : List Course) (ts : List TimeSlot)
    (rooms : List Room) (assignments : Nat → List Nat) (enroll : Nat → Nat)
    (sem ay : String) (a : ScheduleVar → Bool) :
    (∀ v ∈ create_variables courses ts rooms assignments enroll,
      studentCount enroll v.course ≤ v.room.capacity ∧
      (enroll v.course.id = 0 → 30 ≤ v.room.capacity) ∧
      (v.slot.slot_type = "Practical" → v.room.room_type = "Lab") ∧
      (v.slot.slot_type = "Theory" → v.room.room_type ≠ "Lab")) ∧
    (∀ e ∈ extract_solution (create_variables courses ts rooms assignments enroll)
        sem ay a,
      (e.slot.slot_type = "Practical" → e.room.room_type = "Lab") ∧
      (e.slot.slot_type = "Theory" → e.room.room_type ≠ "Lab")) := by
  have hvar : ∀ v ∈ create_variables courses ts rooms assignments enroll,
      studentCount enroll v.course ≤ v.room.capacity ∧
      (enroll v.course.id = 0 → 30 ≤ v.room.capacity) ∧
      (v.slot.slot_type = "Practical" → v.room.room_type = "Lab") ∧
      (v.slot.slot_type = "Theory" → v.room.room_type ≠ "Lab") := by
    intro v hv
    obtain ⟨c, -, s, -, r, -, fid, -, -, hsuit, rfl⟩ :=
      mem_create_variables courses ts rooms assignments enroll v hv
    obtain ⟨hcap, hprac, htheo⟩ := is_room_suitable_spec enroll c r s hsuit
    refine ⟨hcap, ?_, hprac, htheo⟩
    intro hz
    have hsc : studentCount enroll c = 30 := by
      simp [studentCount, show enroll c.id = 0 from hz]
    show (30 : Nat) ≤ r.capacity
    omega
  refine ⟨hvar, ?_⟩
  intro e he
  obtain ⟨v, hv, rfl⟩ := List.mem_map.1 he
  have hv' := (List.mem_filter.1 hv).1
  obtain ⟨-, -, hprac, htheo⟩ := hvar v hv'
  exact ⟨hprac, htheo⟩

/-- The slot-20 candidate variable of the sample problem. -/
def varA20 : ScheduleVar :=
  { course_id := 1, slot_id := 20, room_id := 10, faculty_id := 7,
    course := courseA, slot := slot20, room := room10 }

/-- Witness for C7 at a concrete candidate variable. -/
theorem prefilter_sound_witness :
    varA20 ∈ create_variables [courseA] [slot20, slot21] [room10] assignA enroll0 ∧
    (studentCount enroll0 varA20.course ≤ varA20.room.capacity ∧
      (enroll0 varA20.course.id = 0 → 30 ≤ varA20.room.capacity) ∧
      (varA20.slot.slot_type = "Practical" → varA20.room.room_type = "Lab") ∧
      (varA20.slot.slot_type = "Theory" → varA20.room.room_type ≠ "Lab")) :=
  ⟨by decide,
    (prefilter_sound [courseA] [slot20, slot21] [room10] assignA enroll0
      "Fall" "2025" pickSlot20).1 varA20 (by decide)⟩

/-- C8: a course with zero total hours is skipped by `create_variables`, so
no decision variable and no Solution entry ever carries it. -/
theorem zero_hours_never_scheduled (courses : List Course) (ts : List TimeSlot)
    (rooms : List Room) (assignments : Nat → List Nat) (enroll : Nat → Nat)
    (sem ay : String) (a : ScheduleVar → Bool) (c : Course)
    (hc : totalHours c = 0) :
    (∀ v ∈ create_variables courses ts rooms assignments enroll, v.course ≠ c) ∧
    (∀ e ∈ extract_solution (create_variables courses ts rooms assignments enroll)
        sem ay a, e.course ≠ c) := by
  have hvar : ∀ v ∈ create_variables courses ts rooms assignments enroll,
      v.course ≠ c := by
    intro v hv heq
    obtain ⟨c', -, s, -, r, -, fid, -, hch, -, rfl⟩ :=
      mem_create_variables courses ts rooms assignments enroll v hv
    exact hch (by rw [show c' = c from heq]; exact hc)
  refine ⟨hvar, ?_⟩
  intro e he heq
  obtain ⟨v, hv, rfl⟩ := List.mem_map.1 he
  exact hvar v (List.mem_filter.1 hv).1 heq

/-- A course with zero hours in every category. -/
def courseZ : Course := { id := 3, theory_hours := 0, practical_hours := 0, tutorial_hours := 0 }

/-- Witness for C8: in a problem containing the zero-hours course 3 next to
course 1, the concrete candidate variable is not for course 3. -/
theorem zero_hours_never_scheduled_witness :
    (totalHours courseZ = 0 ∧
      varA20 ∈ create_variables [courseA, courseZ] [slot20, slot21] [room10]
        assignA enroll0) ∧
    varA20.course ≠ courseZ :=
  ⟨⟨by decide, by decide⟩,
    (zero_hours_never_scheduled [courseA, courseZ] [slot20, slot21] [room10]
      assignA enroll0 "Fall" "2025" pickSlot20 courseZ (by decide)).1 varA20 (by decide)⟩

/-! Heuristic NEP draft generator of `main.py`
(`generate_nep_compliant_schedule` and `assign_classroom_by_type`). -/

/-- `subjects` row as used by the heuristic generator (dict defaults of the
source folded into the fields). -/
structure Subject where
  name : String
  code : String
  nep_category : String
  credits : Nat
  is_skill_based : Bool
deriving DecidableEq, Repr

/-- `teachers` row: `name` and `specialization`. -/
structure Teacher where
  name : String
  specialization : String
deriving DecidableEq, Repr

/-- `classrooms` row: `name`, `type` (field `ctype` here) and `department`. -/
structure Classroom where
  name : String
  ctype : String
  department : String
deriving DecidableEq, Repr

/-- One schedule dict appended per period. -/
structure NepEntry where
  time : String
  subject_name : String
  subject_code : String
  nep_category : String
  credits : Nat
  teacher : String
  classroom : String
  is_skill_based : Bool
  is_lab : Bool
deriving DecidableEq, Repr

/-- Character-list begins-with test, used for substring containment. -/
def charsHasPref : List Char → List Char → Bool
  | _, [] => true
  | [], _ :: _ => false
  | a :: as, b :: bs => a == b && charsHasPref as bs

/-- Character-list substring containment. -/
def charsContains : List Char → List Char → Bool
  | [], sub => sub.isEmpty
  | a :: as, sub => charsHasPref (a :: as) sub || charsContains as sub

/-- Python's `sub in hay` on strings. -/
def containsSub (hay sub : String) : Bool :=
  charsContains hay.toList sub.toList

/-- Python's `str.split()`: split on whitespace, dropping empty pieces. -/
def splitWords (s : String) : List String :=
  (s.split Char.isWhitespace).filter fun w => !(w == "")

/-- `nep_priority.index(cat)` with fallback `len(nep_priority)` when the
category is not in the priority list. -/
def nepPriorityIdx (cat : String) : Nat :=
  let order := ["MAJOR", "AEC", "SEC", "MDC", "MINOR", "VAC", "PROJECT"]
  match order.findIdx? (fun c => c == cat) with
  | some i => i
  | none => order.length

/-- `random.randint(lo, hi)` driven by the stream: a value in `[lo, hi]`
and the advanced counter. -/
def randInt (rand : Nat → Nat) (ctr lo hi : Nat) : Nat × Nat :=
  (lo + rand ctr % (hi + 1 - lo), ctr + 1)

/-- `random.choice(l)`: raises IndexError on an empty sequence, else an
element picked by the stream. -/
def randChoice {α : Type} (rand : Nat → Nat) (ctr : Nat) :
    List α → Except String (α × Nat)
  | [] => .error "IndexError: cannot choose from an empty sequence"
  | x :: xs => .ok ((x :: xs).getD (rand ctr % (xs.length + 1)) x, ctr + 1)

/-- Pick `fuel` elements without replacement, following the stream. -/
def pickSeq {α : Type} (rand : Nat → Nat) : Nat → Nat → List α → List α × Nat
  | 0, ctr, _ => ([], ctr)
  | _ + 1, ctr, [] => ([], ctr)
  | fuel + 1, ctr, x :: xs =>
    let idx := rand ctr % (xs.length + 1)
    let chosen := (x :: xs).getD idx x
    let rest := (x :: xs).eraseIdx idx
    let tail := pickSeq rand fuel (ctr + 1) rest
    (chosen :: tail.1, tail.2)

/-- `random.shuffle(l)` (as a permutation-returning function). -/
def randShuffle {α : Type} (rand : Nat → Nat) (ctr : Nat) (l : List α) :
    List α × Nat :=
  pickSeq rand l.length ctr l

/-- `random.sample(l, n)`: raises when `n` exceeds the population size. -/
def randSample {α : Type} (rand : Nat → Nat) (ctr : Nat) (l : List α) (n : Nat) :
    Except String (List α × Nat) :=
  if l.length < n then .error "ValueError: Sample larger than population"
  else .ok (pickSeq rand n ctr l)

/-- Tag each subject with its sort key `(priority index, random tiebreak)`,
computed in iteration order as `sorted`'s key function is. -/
def tagSubjects (rand : Nat → Nat) : Nat → List Subject →
    List ((Nat × Nat) × Subject) × Nat
  | ctr, [] => ([], ctr)
  | ctr, s :: ss =>
    let rest := tagSubjects rand (ctr + 1) ss
    (((nepPriorityIdx s.nep_category, rand ctr), s) :: rest.1, rest.2)

/-- Lexicographic strict order on the `(priority, tiebreak)` sort keys. -/
def keyLtLex (x y : (Nat × Nat) × Subject) : Bool :=
  decide (x.1.1 < y.1.1 ∨ (x.1.1 = y.1.1 ∧ x.1.2 < y.1.2))

/-- `sorted(subjects, key=lambda x: (priority, random.random()))`. -/
def sortSubjects (rand : Nat → Nat) (ctr : Nat) (subjects : List Subject) :
    List Subject × Nat :=
  let tagged := tagSubjects rand ctr subjects
  ((stableSortBy keyLtLex tagged.1).map (·.2), tagged.2)

/-- The hardcoded `time_periods` list. -/
def periodTimes : List (String × String) :=
  [("09:00", "10:00"), ("10:00", "11:00"), ("11:00", "12:00"), ("12:00", "13:00"),
   ("14:00", "15:00"), ("15:00", "16:00"), ("16:00", "17:00")]

/-- `f"{start_time}-{end_time}"` for the period at the given index. -/
def periodStr (i : Nat) : String :=
  let p := periodTimes.getD i ("", "")
  p.1 ++ "-" ++ p.2

/-- `daily_subject_usage[day].get(code, 0)`. -/
def usageCount (usage : List (String × Nat)) (code : String) : Nat :=
  match usage.lookup code with
  | some n => n
  | none => 0

/-- Increment the day's usage count of a subject code. -/
def usageIncr (usage : List (String × Nat)) (code : String) : List (String × Nat) :=
  (code, usageCount usage code + 1) :: usage.filter fun p => !(p.1 == code)

/-- The teacher-suitability filter of `generate_nep_compliant_schedule`:
first two code letters in the specialization, or any word of the subject
name in the specialization (all lowercased). -/
def teacherSuitable (subject : Subject) (t : Teacher) : Bool :=
  containsSub t.specialization.toLower (subject.code.take 2).toLower ||
  (splitWords subject.name.toLower).any fun w => containsSub t.specialization.toLower w

/-- `available_subjects`: pool entries used less than twice today, falling
back to the whole pool when that filter comes up empty. -/
def availableSubjects (pool : List Subject) (usage : List (String × Nat)) :
    List Subject :=
  let avail := pool.filter fun s => decide (usageCount usage s.code < 2)
  if avail.isEmpty then pool else avail

/-- `assign_classroom_by_type` of `main.py`: lab matching (department-
specific lab, then any lab), workshop and CAD special cases, lecture-style
rooms, then the first classroom, `None` when there are none at all. -/
def assign_classroom_by_type (subject : Subject) (classrooms : List Classroom) :
    Option Classroom :=
  let sname := subject.name.toLower
  let isLab := subject.is_skill_based || containsSub sname "lab"
  let dept := if 2 ≤ subject.code.length then (subject.code.take 2).toUpper else ""
  let labPick : Option Classroom :=
    if isLab then
      match classrooms.find? (fun c =>
          c.department == dept || (containsSub c.ctype "LAB" && containsSub c.name dept)) with
      | some c => some c
      | none => classrooms.find? fun c => containsSub c.ctype "LAB"
    else none
  let wsPick : Option Classroom :=
    if containsSub sname "workshop" || containsSub sname "manufacturing" then
      classrooms.find? fun c => c.ctype == "WORKSHOP"
    else none
  let cadPick : Option Classroom :=
    if containsSub sname "cad" || containsSub sname "design" then
      classrooms.find? fun c => c.ctype == "CAD_LAB"
    else none
  let lectPick := classrooms.find? fun c =>
    c.ctype == "LECTURE" || c.ctype == "SEMINAR" || c.ctype == "TUTORIAL"
  labPick <|> wsPick <|> cadPick <|> lectPick <|> classrooms.head?

/-- `random.choice(suitable_teachers) if suitable_teachers else None`, after
the suitability filter with whole-list fallback. -/
def pickTeacher (rand : Nat → Nat) (ctr : Nat) (teachers : List Teacher)
    (subject : Subject) : Except String (Option Teacher × Nat) :=
  let suitable0 := teachers.filter (teacherSuitable subject)
  let suitable := if suitable0.isEmpty then teachers else suitable0
  if suitable.isEmpty then .ok (none, ctr)
  else
    match randChoice rand ctr suitable with
    | .error msg => .error msg
    | .ok tc => .ok (some tc.1, tc.2)

/-- `assign_classroom_by_type` result, falling back to
`random.choice(classrooms) if classrooms else None`. -/
def pickClassroom (rand : Nat → Nat) (ctr : Nat) (classrooms : List Classroom)
    (subject : Subject) : Except String (Option Classroom × Nat) :=
  match assign_classroom_by_type subject classrooms with
  | some c => .ok (some c, ctr)
  | none =>
    if classrooms.isEmpty then .ok (none, ctr)
    else
      match randChoice rand ctr classrooms with
      | .error msg => .error msg
      | .ok cc => .ok (some cc.1, cc.2)

/-- The schedule dict appended for one period. -/
def mkNepEntry (p : Nat) (subject : Subject) (teacherOpt : Option Teacher)
    (roomOpt : Option Classroom) : NepEntry :=
  { time := periodStr p,
    subject_name := subject.name,
    subject_code := subject.code,
    nep_category := subject.nep_category,
    credits := subject.credits,
    teacher := match teacherOpt with | some t => t.name | none => "TBA",
    classroom := match roomOpt with | some c => c.name | none => "TBA",
    is_skill_based := subject.is_skill_based,
    is_lab := containsSub subject.name.toLower "lab" }

/-- The inner `for period ... in selected_periods` loop of one day: when the
pool is empty nothing is appended; otherwise a subject, a teacher and a
classroom are chosen and one entry appended, threading the day's usage
counts and the stream counter. -/
def processPeriods (rand : Nat → Nat) (teachers : List Teacher)
    (classrooms : List Classroom) (pool : List Subject) :
    List Nat → List (String × Nat) → Nat → Except String (List NepEntry × Nat)
  | [], _, ctr => .ok ([], ctr)
  | p :: ps, usage, ctr =>
    if pool.isEmpty then processPeriods rand teachers classrooms pool ps usage ctr
    else
      match randChoice rand ctr (availableSubjects pool usage) with
      | .error msg => .error msg
      | .ok sc =>
        match pickTeacher rand sc.2 teachers sc.1 with
        | .error msg => .error msg
        | .ok tc =>
          match pickClassroom rand tc.2 classrooms sc.1 with
          | .error msg => .error msg
          | .ok rc =>
            match processPeriods rand teachers classrooms pool ps
                (usageIncr usage sc.1.code) rc.2 with
            | .error msg => .error msg
            | .ok ec => .ok (mkNepEntry p sc.1 tc.1 rc.1 :: ec.1, ec.2)

/-- `if ('12:00','13:00') in selected_periods and random.random() < 0.7:
remove it` — the stream value is consumed only when the lunch period (index
3) was selected, matching Python's short-circuit `and`. -/
def lunchFilter (rand : Nat → Nat) (ctr : Nat) (sel : List Nat) : List Nat × Nat :=
  if sel.contains 3 then
    if rand ctr % 10 < 7 then (sel.erase 3, ctr + 1) else (sel, ctr + 1)
  else (sel, ctr)

/-- One day's period selection: `random.randint(4, 6)` periods sampled from
the seven hardcoded ones (by index), sorted by time, lunch possibly
removed. -/
def daySelection (rand : Nat → Nat) (ctr : Nat) : Except String (List Nat × Nat) :=
  match randSample rand (randInt rand ctr 4 6).2 [0, 1, 2, 3, 4, 5, 6]
      (randInt rand ctr 4 6).1 with
  | .error msg => .error msg
  | .ok sc => .ok (lunchFilter rand sc.2 (stableSortBy (fun i j => decide (i < j)) sc.1))

/-- The Monday-to-Friday day names. -/
def dayNames : List String := ["Monday", "Tuesday", "Wednesday", "Thursday", "Friday"]

/-- The outer `for day in days` loop: select the day's periods, fill them
from the pool (each day starts with fresh usage counts), and pair the day
name with its entries. -/
def processDays (rand : Nat → Nat) (teachers : List Teacher)
    (classrooms : List Classroom) (pool : List Subject) :
    List String → Nat → Except String (List (String × List NepEntry) × Nat)
  | [], ctr => .ok ([], ctr)
  | d :: ds, ctr =>
    match daySelection rand ctr with
    | .error msg => .error msg
    | .ok sc =>
      match processPeriods rand teachers classrooms pool sc.1 [] sc.2 with
      | .error msg => .error msg
      | .ok ec =>
        match processDays rand teachers classrooms pool ds ec.2 with
        | .error msg => .error msg
        | .ok dc => .ok ((d, ec.1) :: dc.1, dc.2)

/-- `generate_nep_compliant_schedule` of `main.py`: priority-plus-random
sort of the subjects, a pool with `max(1, credits)` copies of each subject,
a shuffle, then the day loop.  The `time_slots` argument is accepted but
never used, exactly as in the source (the seven periods are hardcoded). -/
def generate_nep_compliant_schedule (rand : Nat → Nat) (subjects : List Subject)
    (teachers : List Teacher) (classrooms : List Classroom)
    (time_slots : List Nat) : Except String (List (String × List NepEntry)) :=
  let sortedCtr := sortSubjects rand 0 subjects
  let poolCtr := randShuffle rand sortedCtr.2
    (sortedCtr.1.flatMap fun s => List.replicate (max 1 s.credits) s)
  match processDays rand teachers classrooms poolCtr.1 dayNames poolCtr.2 with
  | .error msg => .error msg
  | .ok dc => .ok dc.1

/-- `random.choice` on a nonempty list never raises. -/
lemma randChoice_ne_nil {α : Type} (rand : Nat → Nat) (ctr : Nat) (l : List α)
    (h : l ≠ []) : ∃ sc, randChoice rand ctr l = .ok sc := by
  cases l with
  | nil => exact absurd rfl h
  | cons x xs => exact ⟨_, rfl⟩

/-- A nonempty pool always yields a nonempty `available_subjects` list. -/
lemma availableSubjects_ne_nil (pool : List Subject) (usage : List (String × Nat))
    (h : pool ≠ []) : availableSubjects pool usage ≠ [] := by
  simp only [availableSubjects]
  split
  · exact h
  · rename_i hav
    intro he
    rw [he] at hav
    simp at hav

/-- With an empty teachers list the suitable filter and its fallback are
both empty, so no teacher is assigned and no choice is attempted. -/
lemma pickTeacher_empty (rand : Nat → Nat) (ctr : Nat) (subject : Subject) :
    pickTeacher rand ctr [] subject = .ok (none, ctr) := rfl

/-- The classroom pick never raises: either a compatible room is found, or
the classrooms list is empty (no assignment), or `random.choice` runs on a
nonempty list. -/
lemma pickClassroom_ok (rand : Nat → Nat) (ctr : Nat) (classrooms : List Classroom)
    (subject : Subject) : ∃ rc, pickClassroom rand ctr classrooms subject = .ok rc := by
  unfold pickClassroom
  cases assign_classroom_by_type subject classrooms with
  | some c => exact ⟨_, rfl⟩
  | none =>
    by_cases h : classrooms.isEmpty
    · rw [if_pos h]
      exact ⟨_, rfl⟩
    · rw [if_neg h]
      have hne : classrooms ≠ [] := by
        intro he; rw [he] at h; simp at h
      obtain ⟨cc, hcc⟩ := randChoice_ne_nil rand ctr classrooms hne
      rw [hcc]
      exact ⟨_, rfl⟩

/-- `random.sample` within the population size never raises. -/
lemma randSample_le {α : Type} (rand : Nat → Nat) (ctr : Nat) (l : List α)
    (n : Nat) (h : n ≤ l.length) :
    randSample rand ctr l n = .ok (pickSeq rand n ctr l) := by
  unfold randSample
  rw [if_neg (by omega)]

/-- The day's period selection never raises: `randint(4, 6)` is at most the
seven available periods. -/
lemma daySelection_ok (rand : Nat → Nat) (ctr : Nat) :
    ∃ sc, daySelection rand ctr = .ok sc := by
  unfold daySelection
  rw [randSample_le]
  · exact ⟨_, rfl⟩
  · simp [randInt]
    omega

/-- The period loop with no teachers: it never raises and every produced
entry's teacher is the placeholder. -/
lemma processPeriods_tba (rand : Nat → Nat) (classrooms : List Classroom)
    (pool : List Subject) :
    ∀ (ps : List Nat) (usage : List (String × Nat)) (ctr : Nat),
      ∃ ec : List NepEntry × Nat,
        processPeriods rand [] classrooms pool ps usage ctr = .ok ec ∧
        ∀ e ∈ ec.1, e.teacher = "TBA" := by
  intro ps
  induction ps with
  | nil => exact fun usage ctr => ⟨([], ctr), rfl, by simp⟩
  | cons p ps ih =>
    intro usage ctr
    by_cases hpool : pool.isEmpty
    · have hstep : processPeriods rand [] classrooms pool (p :: ps) usage ctr
          = processPeriods rand [] classrooms pool ps usage ctr := by
        simp only [processPeriods, if_pos hpool]
      rw [hstep]
      exact ih usage ctr
    · have hpne : pool ≠ [] := by
        intro he; rw [he] at hpool; simp at hpool
      obtain ⟨sc, hsc⟩ := randChoice_ne_nil rand ctr (availableSubjects pool usage)
        (availableSubjects_ne_nil pool usage hpne)
      obtain ⟨rc, hrc⟩ := pickClassroom_ok rand sc.2 classrooms sc.1
      obtain ⟨ec, hec, hall⟩ := ih (usageIncr usage sc.1.code) rc.2
      refine ⟨(mkNepEntry p sc.1 none rc.1 :: ec.1, ec.2), ?_, ?_⟩
      · simp only [processPeriods, if_neg hpool, hsc, pickTeacher_empty, hrc, hec]
      · intro e he
        rcases List.mem_cons.1 he with rfl | hmem
        · rfl
        · exact hall e hmem

/-- The day loop with no teachers: never raises, every entry of every day
has the placeholder teacher. -/
lemma processDays_tba (rand : Nat → Nat) (classrooms : List Classroom)
    (pool : List Subject) :
    ∀ (ds : List String) (ctr : Nat),
      ∃ dc : List (String × List NepEntry) × Nat,
        processDays rand [] classrooms pool ds ctr = .ok dc ∧
        ∀ de ∈ dc.1, ∀ e ∈ de.2, e.teacher = "TBA" := by
  intro ds
  induction ds with
  | nil => exact fun ctr => ⟨([], ctr), rfl, by simp⟩
  | cons d ds ih =>
    intro ctr
    obtain ⟨sc, hsc⟩ := daySelection_ok rand ctr
    obtain ⟨ec, hec, hallp⟩ := processPeriods_tba rand classrooms pool sc.1 [] sc.2
    obtain ⟨dc, hdc, halld⟩ := ih ec.2
    refine ⟨((d, ec.1) :: dc.1, dc.2), ?_, ?_⟩
    · simp only [processDays, hsc, hec, hdc]
    · intro de hde
      rcases List.mem_cons.1 hde with rfl | hmem
      · exact hallp
      · exact halld de hmem

/-- C9: invoking the heuristic draft generator with an empty teachers list
(and any non-empty subjects, classrooms and time slots) raises no error,
and every generated entry's teacher field is the placeholder 'TBA'. -/
theorem heuristic_empty_teachers_tba (rand : Nat → Nat) (subjects : List Subject)
    (classrooms : List Classroom) (time_slots : List Nat)
    (hS : subjects ≠ []) (hC : classrooms ≠ []) (hT : time_slots ≠ []) :
    ∃ sched, generate_nep_compliant_schedule rand subjects [] classrooms time_slots
        = .ok sched ∧ ∀ de ∈ sched, ∀ e ∈ de.2, e.teacher = "TBA" := by
  obtain ⟨dc, hdc, hall⟩ := processDays_tba rand classrooms
    (randShuffle rand (sortSubjects rand 0 subjects).2
      ((sortSubjects rand 0 subjects).1.flatMap fun s =>
        List.replicate (max 1 s.credits) s)).1
    dayNames
    (randShuffle rand (sortSubjects rand 0 subjects).2
      ((sortSubjects rand 0 subjects).1.flatMap fun s =>
        List.replicate (max 1 s.credits) s)).2
  refine ⟨dc.1, ?_, fun de hde => hall de hde⟩
  simp only [generate_nep_compliant_schedule, hdc]

/-- A concrete subject for exercising the heuristic generator. -/
def subjDS : Subject :=
  { name := "Data Structures and Algorithms", code := "CS201",
    nep_category := "MAJOR", credits := 4, is_skill_based := true }

/-- A concrete lecture classroom. -/
def nepRoomL : Classroom :=
  { name := "LH-1", ctype := "LECTURE", department := "CS" }

/-- Witness for C9 on a concrete run with one subject, no teachers, one
lecture hall: the generator succeeds and every entry's teacher is 'TBA'. -/
theorem heuristic_empty_teachers_tba_witness :
    (([subjDS] : List Subject) ≠ [] ∧ ([nepRoomL] : List Classroom) ≠ [] ∧
      ([0] : List Nat) ≠ []) ∧
    (∃ sched, generate_nep_compliant_schedule (fun n => n) [subjDS] [] [nepRoomL] [0]
        = .ok sched ∧ ∀ de ∈ sched, ∀ e ∈ de.2, e.teacher = "TBA") :=
  ⟨⟨by decide, by decide, by decide⟩,
    heuristic_empty_teachers_tba (fun n => n) [subjDS] [nepRoomL] [0]
      (by decide) (by decide) (by decide)⟩

end Timetable
